import Mathlib

/-!
Shallow embedding of the fitness-club booking engine of `src/api/models.py`
(models `WorkSchedule`, `Trainer`, `Room`, `Training`, `Booking`).

Conventions of the embedding:
* A time of day is a `Nat`, minutes since midnight; Python `time` comparison
  is the `Nat` order, and the `.hour` attribute of a `time`/`datetime` is
  division by 60 (`hourOf`).
* A nullable foreign key / nullable column is an `Option` field.
* A Python `AttributeError` raised by dereferencing `None` is modelled by the
  value `none` of an `Option`-returning function (`can_book`), or by the
  `Outcome.crash` result of a validation entry point.
* The persistent store is a `DB` value: the list of `Training` rows and the
  list of `Booking` rows.  ORM queries become list filters over it.
* Fields never consulted by the booking engine (names, genders, user roles,
  the trainer's room set) are omitted.
-/

/-- hour component of a time of day given in minutes since midnight; models
the `.hour` attribute of a Python `time`/`datetime` value. -/
def hourOf (t : Nat) : Nat := t / 60

/-- WorkSchedule row: work window and break window, all times of day. -/
structure WorkSchedule where
  start_time : Nat
  end_time : Nat
  break_start : Nat
  break_end : Nat
deriving DecidableEq

/-- WorkSchedule.is_available: `self.start_time <= start_time and
self.end_time >= end_time` — the work window fully contains the interval. -/
def WorkSchedule.is_available (ws : WorkSchedule) (start_time end_time : Nat) : Bool :=
  decide (ws.start_time ≤ start_time ∧ ws.end_time ≥ end_time)

/-- Trainer row: primary key and nullable work_schedule foreign key
(`on_delete=SET_NULL, null=True`). -/
structure Trainer where
  id : Nat
  work_schedule : Option WorkSchedule
deriving DecidableEq

/-- Trainer.is_available: `False` when `work_schedule is None`, otherwise
delegates to `WorkSchedule.is_available`. -/
def Trainer.is_available (tr : Trainer) (start_time end_time : Nat) : Bool :=
  match tr.work_schedule with
  | none => false
  | some ws => ws.is_available start_time end_time

/-- Room row: only the capacity is consulted by the engine. -/
structure Room where
  capacity : Nat
deriving DecidableEq

/-- Training.training_type choices: `GT` (group), `PT` (personal),
`SW` (free training). -/
inductive TrainingType where
  | GT
  | PT
  | SW
deriving DecidableEq

/-- Training row.  `trainer` is a nullable foreign key (`null=True`);
`group_training_type` is a nullable foreign key to `GroupTrainingType`,
modelled by its primary key. -/
structure Training where
  id : Nat
  trainer : Option Trainer
  room : Room
  training_type : TrainingType
  group_training_type : Option Nat
  start_time : Nat
  end_time : Nat
deriving DecidableEq

/-- Booking row.  `training` is a nullable foreign key (`null=True`), held
here as the referenced row itself, as in ORM memory; `booking_time` is a
datetime column, of which only the time of day is ever consulted, nullable
in memory (the column itself is NOT NULL). -/
structure Booking where
  user : Nat
  training : Option Training
  booking_time : Option Nat
deriving DecidableEq

/-- primary key of the training a booking refers to, as compared by the ORM
for `training=self` filters and for the unique constraint. -/
def Booking.trainingId (b : Booking) : Option Nat := b.training.map Training.id

/-- persistent store: all Training rows and all Booking rows. -/
structure DB where
  trainings : List Training
  bookings : List Booking
deriving DecidableEq

/-- bookings_count computed at the top of `Training.can_book`:
`Booking.objects.filter(training=self,
booking_time__hour__range=(self.start_time.hour, self.end_time.hour)).count()`
— the Bookings of this Training whose booking_time has its hour component in
the inclusive range `[start_time.hour, end_time.hour]`.  A NULL
booking_time never matches an SQL range. -/
def bookings_count (db : DB) (t : Training) : Nat :=
  (db.bookings.filter (fun b =>
    b.trainingId == some t.id &&
    match b.booking_time with
    | some bt => decide (hourOf t.start_time ≤ hourOf bt ∧ hourOf bt ≤ hourOf t.end_time)
    | none => false)).length

/-- same_group_trainings query of the GROUP branch of `Training.can_book`:
`Training.objects.filter(trainer=self.trainer,
group_training_type=self.group_training_type, start_time__lte=self.start_time,
end_time__gte=self.end_time)`.  Foreign keys are compared by primary key
(NULL matches NULL); nothing excludes the row of `self` itself. -/
def same_group_trainings (db : DB) (t : Training) : List Training :=
  db.trainings.filter (fun o =>
    o.trainer.map Trainer.id == t.trainer.map Trainer.id &&
    o.group_training_type == t.group_training_type &&
    decide (o.start_time ≤ t.start_time) &&
    decide (o.end_time ≥ t.end_time))

/-- body of `Training.can_book` after the dereferences `self.trainer` and
`trainer.work_schedule` have succeeded: the break-window check, then the
branch on training_type, then the final `return bookings_count <
self.room.capacity` fallthrough.  In the PERSONAL branch the source guard is
`bookings_count > 0 or not self.trainer`; its second disjunct is always False
there, since `self.trainer` is a non-null model instance and hence truthy. -/
def can_book_body (db : DB) (t : Training) (booking_time : Nat)
    (trainer : Trainer) (work_schedule : WorkSchedule) : Bool :=
  if work_schedule.break_start ≤ booking_time ∧ booking_time ≤ work_schedule.break_end then
    false
  else
    match t.training_type with
    | TrainingType.GT =>
      if !(trainer.is_available t.start_time t.end_time) then false
      else if (same_group_trainings db t).isEmpty then false
      else decide (bookings_count db t < t.room.capacity)
    | TrainingType.PT =>
      if 0 < bookings_count db t then false
      else if !(trainer.is_available t.start_time t.end_time) then false
      else decide (bookings_count db t < t.room.capacity)
    | TrainingType.SW => decide (bookings_count db t < t.room.capacity)

/-- Training.can_book.  The line `work_schedule = self.trainer.work_schedule`
raises AttributeError when `self.trainer` is NULL, and the break-window
comparison raises AttributeError when the fetched `work_schedule` is NULL;
both failures are modelled as `none`.  A string argument is parsed with
`datetime.fromisoformat(...).time()` to the time of day it denotes, so the
argument here is already a time of day. -/
def can_book (db : DB) (t : Training) (booking_time : Nat) : Option Bool :=
  match t.trainer with
  | none => none
  | some trainer =>
    match trainer.work_schedule with
    | none => none
    | some work_schedule => some (can_book_body db t booking_time trainer work_schedule)

/-- count of all Booking rows of a Training, the `Count` aggregate of
`Training.get_available_trainings`. -/
def training_total_bookings (db : DB) (t : Training) : Nat :=
  (db.bookings.filter (fun b => b.trainingId == some t.id)).length

/-- range-exclusion predicate of `Training.get_available_trainings`: the
Training has some Booking whose booking_time lies within
`[start_time, end_time]`. -/
def has_booking_in_range (db : DB) (t : Training) : Bool :=
  db.bookings.any (fun b =>
    b.trainingId == some t.id &&
    match b.booking_time with
    | some bt => decide (t.start_time ≤ bt ∧ bt ≤ t.end_time)
    | none => false)

/-- Training.get_available_trainings: keep Trainings with
`start_time__gte=start_time` and without a booking in
`(F(start_time), F(end_time))`, then keep those whose booking count is below
the room capacity.  The source query spells the reverse relation `bookings`,
but `Booking.training` declares `related_name=training_bookings`, so the ORM
cannot resolve the lookup and every call raises FieldError; this definition
embeds the query as written, reading `bookings` as the Training's Bookings. -/
def get_available_trainings (db : DB) (start_time : Nat) : List Training :=
  (db.trainings.filter (fun t =>
    decide (t.start_time ≥ start_time) && !(has_booking_in_range db t))).filter
    (fun t => decide (training_total_bookings db t < t.room.capacity))

/-- result of running one of the Booking validation entry points:
it passes, it raises ValidationError, or it crashes with AttributeError. -/
inductive Outcome where
  | ok
  | validationError
  | crash
deriving DecidableEq

/-- check_booking_time, the pre_save receiver on Booking:
`booking_time_str = str(instance.booking_time) if instance.booking_time else
None`, then `if booking_time_str and not instance.training.can_book(...)`
raises ValidationError.  A None booking_time skips the check; a None
training crashes on `.can_book`; a crash inside can_book propagates. -/
def check_booking_time (db : DB) (b : Booking) : Outcome :=
  match b.booking_time with
  | none => Outcome.ok
  | some bt =>
    match b.training with
    | none => Outcome.crash
    | some t =>
      match can_book db t bt with
      | none => Outcome.crash
      | some true => Outcome.ok
      | some false => Outcome.validationError

/-- Booking.clean: textually the same guard as `check_booking_time`
(`super().clean()` is a no-op), duplicated in the source as the explicit
validation entry point. -/
def Booking.clean (db : DB) (b : Booking) : Outcome :=
  match b.booking_time with
  | none => Outcome.ok
  | some bt =>
    match b.training with
    | none => Outcome.crash
    | some t =>
      match can_book db t bt with
      | none => Outcome.crash
      | some true => Outcome.ok
      | some false => Outcome.validationError

/-- UniqueConstraint(fields=[user, training]) as the database enforces it:
a duplicate (user, training) row is rejected when training is non-NULL;
rows with a NULL training never conflict, since SQL unique constraints
treat NULLs as distinct. -/
def uniqueOK (db : DB) (b : Booking) : Bool :=
  match b.trainingId with
  | none => true
  | some tid =>
    !(db.bookings.any (fun b2 => b2.user == b.user && b2.trainingId == some tid))

/-- persisting a Booking through Django `save()`: the pre_save signal
`check_booking_time` runs first (a ValidationError or an AttributeError
aborts the save), then the database applies the NOT NULL constraint on
booking_time and the unique (user, training) constraint.  `none` means the
write failed and the store is unchanged. -/
def save_booking (db : DB) (b : Booking) : Option DB :=
  match check_booking_time db b with
  | Outcome.ok =>
    if b.booking_time.isSome && uniqueOK db b then
      some ⟨db.trainings, db.bookings ++ [b]⟩
    else none
  | _ => none

/-- reachable persisted states: from an initial store with no bookings,
bookings are only ever persisted through `save_booking` or deleted
(cancellation); administrative edits may replace the Training table. -/
inductive Reachable : DB → Prop where
  | init (ts : List Training) : Reachable ⟨ts, []⟩
  | save {db db2 : DB} {b : Booking} :
      Reachable db → save_booking db b = some db2 → Reachable db2
  | cancel {ts : List Training} {bs1 bs2 : List Booking} {b : Booking} :
      Reachable ⟨ts, bs1 ++ b :: bs2⟩ → Reachable ⟨ts, bs1 ++ bs2⟩
  | admin {ts ts2 : List Training} {bs : List Booking} :
      Reachable ⟨ts, bs⟩ → Reachable ⟨ts2, bs⟩

/-- Modelled from the spec wording of the bookings_count step: the number of
existing Bookings for this Training whose booking_time falls within the hour
range `[start_time.hour, end_time.hour]`. -/
def bookings_count_spec (db : DB) (t : Training) : Nat :=
  (db.bookings.filter (fun b =>
    b.trainingId == some t.id &&
    match b.booking_time with
    | some bt => decide (hourOf t.start_time ≤ hourOf bt ∧ hourOf bt ≤ hourOf t.end_time)
    | none => false)).length

/-- Modelled from the spec wording it contrasts with: the count over the exact
`[start_time, end_time]` interval instead of the hour range. -/
def exact_interval_count (db : DB) (t : Training) : Nat :=
  (db.bookings.filter (fun b =>
    b.trainingId == some t.id &&
    match b.booking_time with
    | some bt => decide (t.start_time ≤ bt ∧ bt ≤ t.end_time)
    | none => false)).length

/-- standard schedule of the worked examples: work 08:00-17:00,
break 12:00-13:00. -/
def wsStd : WorkSchedule := ⟨480, 1020, 720, 780⟩

/-- trainer with the standard schedule. -/
def trStd : Trainer := ⟨1, some wsStd⟩

/-- trainer whose work_schedule foreign key has been set to NULL. -/
def trNoSched : Trainer := ⟨2, none⟩

/-- room with capacity 2. -/
def roomTwo : Room := ⟨2⟩

/-- free (SW) training 10:00-11:00 with a trainer attached. -/
def freeT : Training := ⟨1, some trStd, roomTwo, TrainingType.SW, none, 600, 660⟩

/-- store holding only `freeT`, no bookings. -/
def dbFree : DB := ⟨[freeT], []⟩

/-- group (GT) training 10:00-11:00; the store `dbGroup` holds it as its only
Training row, so it has no sibling other than itself. -/
def groupT : Training := ⟨2, some trStd, roomTwo, TrainingType.GT, some 1, 600, 660⟩

/-- store holding only `groupT`, no bookings. -/
def dbGroup : DB := ⟨[groupT], []⟩

/-- training whose trainer exists but has a NULL work_schedule. -/
def noSchedT : Training := ⟨3, some trNoSched, roomTwo, TrainingType.SW, none, 600, 660⟩

/-- personal (PT) training with no trainer assigned. -/
def persT : Training := ⟨4, none, roomTwo, TrainingType.PT, none, 600, 660⟩

/-- training 10:30-11:30, for the hour-granularity example. -/
def hourT : Training := ⟨5, some trStd, roomTwo, TrainingType.SW, none, 630, 690⟩

/-- booking of `hourT` at 10:00: hour 10 lies in the hour range [10, 11] even
though 10:00 is before the 10:30 start. -/
def bkHour : Booking := ⟨7, some hourT, some 600⟩

/-- store for the hour-granularity example. -/
def dbHour : DB := ⟨[hourT], [bkHour]⟩

/-- booking of `freeT` by user 10 at 10:50. -/
def bkFree : Booking := ⟨10, some freeT, some 650⟩

/-- attempted duplicate: same user 10, same training `freeT`. -/
def bkDup : Booking := ⟨10, some freeT, some 655⟩

/-- booking whose booking_time is None. -/
def bkNoTime : Booking := ⟨11, some freeT, none⟩

/-- personal (PT) training 10:00-11:00 with the standard trainer. -/
def persOkT : Training := ⟨6, some trStd, roomTwo, TrainingType.PT, none, 600, 660⟩

/-- store holding only `persOkT`, no bookings. -/
def dbPers : DB := ⟨[persOkT], []⟩

/-- store holding `freeT` and the persisted booking `bkFree`. -/
def dbOne : DB := ⟨[freeT], [bkFree]⟩

/-- helper: the break-window check at the head of `can_book_body` rejects. -/
theorem can_book_body_break (db : DB) (t : Training) (bt : Nat)
    (tr : Trainer) (ws : WorkSchedule)
    (h1 : ws.break_start ≤ bt) (h2 : bt ≤ ws.break_end) :
    can_book_body db t bt tr ws = false := by
  unfold can_book_body
  rw [if_pos ⟨h1, h2⟩]

/-- helper: outside the break window, `can_book_body` is the training_type
branch. -/
theorem can_book_body_no_break (db : DB) (t : Training) (bt : Nat)
    (tr : Trainer) (ws : WorkSchedule)
    (h : ¬ (ws.break_start ≤ bt ∧ bt ≤ ws.break_end)) :
    can_book_body db t bt tr ws =
      match t.training_type with
      | TrainingType.GT =>
        if !(tr.is_available t.start_time t.end_time) then false
        else if (same_group_trainings db t).isEmpty then false
        else decide (bookings_count db t < t.room.capacity)
      | TrainingType.PT =>
        if 0 < bookings_count db t then false
        else if !(tr.is_available t.start_time t.end_time) then false
        else decide (bookings_count db t < t.room.capacity)
      | TrainingType.SW => decide (bookings_count db t < t.room.capacity) := by
  unfold can_book_body
  rw [if_neg h]

/-- helper: `can_book` on a training with trainer and schedule attached. -/
theorem can_book_eq_body (db : DB) (t : Training) (bt : Nat)
    (tr : Trainer) (ws : WorkSchedule)
    (htr : t.trainer = some tr) (hws : tr.work_schedule = some ws) :
    can_book db t bt = some (can_book_body db t bt tr ws) := by
  simp [can_book, htr, hws]

/-- C1 counterexample: the FREE training `freeT` has 0 bookings, below its
room capacity 2, yet can_book at 12:30 (inside the trainer's break) returns
False — so a FREE training's answer is not independent of the break window. -/
theorem free_break_counterexample :
    freeT.training_type = TrainingType.SW ∧
      bookings_count dbFree freeT < freeT.room.capacity ∧
      can_book dbFree freeT 750 = some false := by decide

/-- C1 (amended): for a FREE training whose trainer and work schedule are
attached and a booking_time outside the break window, can_book accepts iff
the hour-range booking count is strictly below the room capacity; the
trainer's availability for the session interval is not consulted. -/
theorem free_can_book_iff_capacity (db : DB) (t : Training) (bt : Nat)
    (tr : Trainer) (ws : WorkSchedule)
    (htr : t.trainer = some tr) (hws : tr.work_schedule = some ws)
    (hty : t.training_type = TrainingType.SW)
    (hbr : ¬ (ws.break_start ≤ bt ∧ bt ≤ ws.break_end)) :
    can_book db t bt = some (decide (bookings_count db t < t.room.capacity)) := by
  rw [can_book_eq_body db t bt tr ws htr hws, can_book_body_no_break db t bt tr ws hbr, hty]

/-- C1 witness: the amended theorem evaluated on `freeT` at 10:50. -/
theorem free_can_book_iff_capacity_witness :
    can_book dbFree freeT 650 =
      some (decide (bookings_count dbFree freeT < freeT.room.capacity)) :=
  free_can_book_iff_capacity dbFree freeT 650 trStd wsStd rfl rfl rfl (by decide)

/-- C2 counterexample: `groupT` is the only Training row of `dbGroup` — no
other row shares its trainer, group type and a containing window — yet
can_book at 10:50 returns True, because the sibling query does not exclude
the row of the training itself. -/
theorem lone_group_counterexample :
    dbGroup.trainings = [groupT] ∧ groupT.training_type = TrainingType.GT ∧
      can_book dbGroup groupT 650 = some true := by decide

/-- C2 (amended): for a GROUP training whose trainer and work schedule are
attached and a booking_time outside the break window, can_book accepts iff
the trainer is available for the session interval, the sibling query —
which any persisted row of the training itself also satisfies — is
non-empty, and the booking count is below the room capacity. -/
theorem group_can_book_eq (db : DB) (t : Training) (bt : Nat)
    (tr : Trainer) (ws : WorkSchedule)
    (htr : t.trainer = some tr) (hws : tr.work_schedule = some ws)
    (hty : t.training_type = TrainingType.GT)
    (hbr : ¬ (ws.break_start ≤ bt ∧ bt ≤ ws.break_end)) :
    can_book db t bt = some (tr.is_available t.start_time t.end_time &&
      !(same_group_trainings db t).isEmpty &&
      decide (bookings_count db t < t.room.capacity)) := by
  rw [can_book_eq_body db t bt tr ws htr hws, can_book_body_no_break db t bt tr ws hbr, hty]
  cases hA : tr.is_available t.start_time t.end_time <;>
    cases hE : (same_group_trainings db t).isEmpty <;> simp [hA, hE]

/-- C2 witness: the amended theorem evaluated on `groupT` at 10:50. -/
theorem group_can_book_eq_witness :
    can_book dbGroup groupT 650 =
      some (trStd.is_available groupT.start_time groupT.end_time &&
        !(same_group_trainings dbGroup groupT).isEmpty &&
        decide (bookings_count dbGroup groupT < groupT.room.capacity)) :=
  group_can_book_eq dbGroup groupT 650 trStd wsStd rfl rfl rfl (by decide)

/-- C3: for any training whose trainer and work schedule are attached, a
booking_time inside the inclusive break window `[break_start, break_end]`
makes can_book return False, whatever the training_type, the capacity, the
booking counts and the trainer's availability for the session interval. -/
theorem break_always_blocks (db : DB) (t : Training) (bt : Nat)
    (tr : Trainer) (ws : WorkSchedule)
    (htr : t.trainer = some tr) (hws : tr.work_schedule = some ws)
    (h1 : ws.break_start ≤ bt) (h2 : bt ≤ ws.break_end) :
    can_book db t bt = some false := by
  rw [can_book_eq_body db t bt tr ws htr hws, can_book_body_break db t bt tr ws h1 h2]

/-- C3 witness: booking `freeT` at 12:30 — inside the 12:00-13:00 break —
is rejected. -/
theorem break_always_blocks_witness : can_book dbFree freeT 750 = some false :=
  break_always_blocks dbFree freeT 750 trStd wsStd rfl rfl (by decide) (by decide)

/-- C4 counterexample: `noSchedT` has a non-null trainer, whose work_schedule
foreign key is NULL, and can_book crashes on it — so a non-null trainer is
not sufficient for the break-time check not to fail. -/
theorem nonnull_trainer_crash_counterexample :
    noSchedT.trainer ≠ none ∧ can_book dbFree noSchedT 650 = none := by decide

/-- C4 (amended): can_book avoids the null-dereference failure exactly when
the Training has a non-null trainer and that trainer has a non-null
work_schedule; with no trainer, or with a trainer whose schedule is NULL,
it fails. -/
theorem can_book_defined_iff (db : DB) (t : Training) (bt : Nat) :
    (can_book db t bt).isSome = true ↔
      ∃ tr, t.trainer = some tr ∧ ∃ ws, tr.work_schedule = some ws := by
  cases htr : t.trainer with
  | none => simp [can_book, htr]
  | some tr =>
    cases hws : tr.work_schedule with
    | none => simp [can_book, htr, hws]
    | some ws => simp [can_book, htr, hws]

/-- C4 witness: on `freeT`, whose trainer and schedule are attached, can_book
returns a value. -/
theorem can_book_defined_iff_witness : (can_book dbFree freeT 650).isSome = true :=
  (can_book_defined_iff dbFree freeT 650).mpr ⟨trStd, rfl, wsStd, rfl⟩

/-- C5 counterexample: on the PERSONAL training `persT`, which has no trainer
assigned, can_book crashes with an AttributeError instead of returning
False. -/
theorem personal_no_trainer_counterexample :
    persT.training_type = TrainingType.PT ∧ persT.trainer = none ∧
      can_book ⟨[persT], []⟩ persT 650 = none := by decide

/-- C5 (amended): for a PERSONAL training whose trainer and work schedule are
attached and a booking_time outside the break window, can_book rejects if
the booking count is positive or the trainer is unavailable for the session
interval, and otherwise falls through to accepting iff the booking count is
below the room capacity; with no trainer assigned it fails instead of
returning False. -/
theorem personal_can_book_eq (db : DB) (t : Training) (bt : Nat)
    (tr : Trainer) (ws : WorkSchedule)
    (htr : t.trainer = some tr) (hws : tr.work_schedule = some ws)
    (hty : t.training_type = TrainingType.PT)
    (hbr : ¬ (ws.break_start ≤ bt ∧ bt ≤ ws.break_end)) :
    can_book db t bt = some (decide (bookings_count db t = 0) &&
      tr.is_available t.start_time t.end_time &&
      decide (bookings_count db t < t.room.capacity)) := by
  rw [can_book_eq_body db t bt tr ws htr hws, can_book_body_no_break db t bt tr ws hbr, hty]
  cases hA : tr.is_available t.start_time t.end_time <;>
    by_cases h0 : bookings_count db t = 0 <;>
      simp [hA, h0, Nat.pos_of_ne_zero]

/-- C5 witness: the amended theorem evaluated on `persOkT` at 10:50. -/
theorem personal_can_book_eq_witness :
    can_book dbPers persOkT 650 = some (decide (bookings_count dbPers persOkT = 0) &&
      trStd.is_available persOkT.start_time persOkT.end_time &&
      decide (bookings_count dbPers persOkT < persOkT.room.capacity)) :=
  personal_can_book_eq dbPers persOkT 650 trStd wsStd rfl rfl rfl (by decide)

/-- C6: the bookings_count of can_book counts exactly the Bookings of this
Training whose booking_time hour component lies in the inclusive hour range
[start_time.hour, end_time.hour]; and it is hour granularity, not the exact
interval: the 10:00 booking of the 10:30-11:30 training `hourT` is counted
although it lies outside [start_time, end_time]. -/
theorem bookings_count_matches_spec :
    (∀ (db : DB) (t : Training), bookings_count db t = bookings_count_spec db t) ∧
      bookings_count dbHour hourT = 1 ∧ exact_interval_count dbHour hourT = 0 :=
  ⟨fun _ _ => rfl, by decide, by decide⟩

/-- C7: WorkSchedule.is_available holds iff the work window contains the
interval (no break check); Trainer.is_available is False when no schedule
is attached and otherwise returns exactly WorkSchedule.is_available. -/
theorem is_available_contract :
    (∀ (ws : WorkSchedule) (s e : Nat),
        ws.is_available s e = true ↔ ws.start_time ≤ s ∧ ws.end_time ≥ e) ∧
      (∀ (tr : Trainer) (s e : Nat), tr.work_schedule = none →
        tr.is_available s e = false) ∧
      (∀ (tr : Trainer) (ws : WorkSchedule) (s e : Nat), tr.work_schedule = some ws →
        tr.is_available s e = ws.is_available s e) := by
  refine ⟨fun ws s e => ?_, fun tr s e h => ?_, fun tr ws s e h => ?_⟩
  · simp [WorkSchedule.is_available]
  · simp [Trainer.is_available, h]
  · simp [Trainer.is_available, h]

/-- C7 witness: the contract evaluated on the schedule-less trainer and on
the standard trainer. -/
theorem is_available_contract_witness :
    Trainer.is_available trNoSched 600 660 = false ∧
      Trainer.is_available trStd 600 660 = WorkSchedule.is_available wsStd 600 660 :=
  ⟨is_available_contract.2.1 trNoSched 600 660 rfl,
   is_available_contract.2.2 trStd wsStd 600 660 rfl⟩

/-- C8: membership in get_available_trainings — the query as the source and
its docstring intend it; as written every call raises FieldError over the
misspelt reverse-relation name, see the definition's comment — holds exactly
for the Trainings starting no earlier than the given time, having no booking
inside [start_time, end_time], and with booking count below the room
capacity. -/
theorem get_available_trainings_mem (db : DB) (p : Nat) (t : Training) :
    t ∈ get_available_trainings db p ↔
      t ∈ db.trainings ∧ p ≤ t.start_time ∧
        (¬ ∃ b ∈ db.bookings, b.trainingId = some t.id ∧
          ∃ bt, b.booking_time = some bt ∧ t.start_time ≤ bt ∧ bt ≤ t.end_time) ∧
        training_total_bookings db t < t.room.capacity := by
  have hr : has_booking_in_range db t = true ↔
      ∃ b ∈ db.bookings, b.trainingId = some t.id ∧
        ∃ bt, b.booking_time = some bt ∧ t.start_time ≤ bt ∧ bt ≤ t.end_time := by
    simp only [has_booking_in_range, List.any_eq_true, Bool.and_eq_true, beq_iff_eq]
    apply exists_congr
    intro b
    apply and_congr_right
    intro _
    apply and_congr_right
    intro _
    cases hbt : b.booking_time <;> simp [hbt]
  constructor
  · intro h
    simp only [get_available_trainings, List.mem_filter, Bool.and_eq_true,
      decide_eq_true_eq, ge_iff_le, Bool.not_eq_true'] at h
    rcases h with ⟨⟨hmem, hp, hnr⟩, hcap⟩
    refine ⟨hmem, hp, ?_, hcap⟩
    intro hex
    rw [hr.mpr hex] at hnr
    simp at hnr
  · rintro ⟨hmem, hp, hnr, hcap⟩
    simp only [get_available_trainings, List.mem_filter, Bool.and_eq_true,
      decide_eq_true_eq, ge_iff_le, Bool.not_eq_true']
    refine ⟨⟨hmem, hp, ?_⟩, hcap⟩
    cases hb : has_booking_in_range db t
    · rfl
    · exact absurd (hr.mp hb) hnr

/-- helper: what a successful save_booking implies — the pre_save check
passed, the NOT NULL and unique constraints held, and the new row was
appended. -/
theorem save_booking_inv {db : DB} {b : Booking} {db2 : DB}
    (h : save_booking db b = some db2) :
    check_booking_time db b = Outcome.ok ∧ b.booking_time.isSome = true ∧
      uniqueOK db b = true ∧ db2 = ⟨db.trainings, db.bookings ++ [b]⟩ := by
  unfold save_booking at h
  cases hok : check_booking_time db b <;> rw [hok] at h <;> simp only [] at h
  case ok =>
    cases h1 : b.booking_time.isSome <;> cases h2 : uniqueOK db b <;>
      rw [h1, h2] at h <;> simp at h
    exact ⟨rfl, rfl, rfl, h.symm⟩
  case validationError => exact absurd h (by simp)
  case crash => exact absurd h (by simp)

/-- helper: a booking whose pre_save check passed with a non-null
booking_time refers to a non-null training. -/
theorem check_ok_training {db : DB} {b : Booking} {bt : Nat}
    (hbt : b.booking_time = some bt) (h : check_booking_time db b = Outcome.ok) :
    ∃ t, b.training = some t := by
  cases htr : b.training with
  | some t => exact ⟨t, rfl⟩
  | none => simp [check_booking_time, hbt, htr] at h

/-- helper: the unique-constraint check refuses a booking duplicating the
(user, training) pair of a stored row with a non-null training. -/
theorem uniqueOK_false_of_dup {db : DB} {b c : Booking} {tid : Nat}
    (htid : b.trainingId = some tid) (hc : c ∈ db.bookings)
    (hcu : c.user = b.user) (hct : c.trainingId = some tid) :
    uniqueOK db b = false := by
  unfold uniqueOK
  rw [htid]
  simp [List.any_eq_true]
  exact ⟨c, hc, hcu, hct⟩

/-- helper: a passing unique-constraint check means no stored row shares the
(user, training) pair. -/
theorem uniqueOK_no_dup {db : DB} {b : Booking} {tid : Nat}
    (htid : b.trainingId = some tid) (h : uniqueOK db b = true) :
    ∀ a ∈ db.bookings, ¬ (a.user = b.user ∧ a.trainingId = some tid) := by
  intro a ha hcontra
  have hfalse : uniqueOK db b = false :=
    uniqueOK_false_of_dup htid ha hcontra.1 hcontra.2
  rw [h] at hfalse
  simp at hfalse

/-- helper: a failing unique-constraint check makes save_booking fail. -/
theorem save_booking_dup_none {db : DB} {b : Booking}
    (hu : uniqueOK db b = false) : save_booking db b = none := by
  unfold save_booking
  cases hok : check_booking_time db b <;> simp [hu]

/-- helper: every reachable store has pairwise distinct (user, training)
pairs among its bookings. -/
theorem reachable_distinct {db : DB} (h : Reachable db) :
    db.bookings.Pairwise (fun a c => ¬ (a.user = c.user ∧ a.trainingId = c.trainingId)) := by
  induction h with
  | init ts => exact List.Pairwise.nil
  | @save db2 db3 b hr hs ih =>
    rcases save_booking_inv hs with ⟨hok, htime, huniq, rfl⟩
    rcases Option.isSome_iff_exists.mp htime with ⟨bt, hbt⟩
    rcases check_ok_training hbt hok with ⟨t, htr⟩
    have htid : b.trainingId = some t.id := by simp [Booking.trainingId, htr]
    refine List.pairwise_append.mpr ⟨ih, List.pairwise_singleton _ _, ?_⟩
    intro a ha c hc
    rcases List.mem_singleton.mp hc with rfl
    intro hcontra
    exact uniqueOK_no_dup htid huniq a ha ⟨hcontra.1, hcontra.2.trans htid⟩
  | @cancel ts bs1 bs2 b hr ih =>
    exact ih.sublist ((List.sublist_cons_self b bs2).append_left bs1)
  | @admin ts ts2 bs hr ih => exact ih

/-- C9: in every reachable persisted state no two Bookings share the same
(user, training) pair, and an attempted write duplicating the user and the
Training of a stored Booking fails. -/
theorem booking_unique_per_user {db : DB} (h : Reachable db) :
    db.bookings.Pairwise (fun a c => ¬ (a.user = c.user ∧ a.trainingId = c.trainingId)) ∧
      ∀ b : Booking, b.trainingId ≠ none →
        (∃ c ∈ db.bookings, c.user = b.user ∧ c.trainingId = b.trainingId) →
        save_booking db b = none := by
  refine ⟨reachable_distinct h, ?_⟩
  rintro b htid ⟨c, hc, hcu, hct⟩
  rcases Option.ne_none_iff_exists.mp htid with ⟨tid, htid2⟩
  exact save_booking_dup_none
    (uniqueOK_false_of_dup htid2.symm hc hcu (hct.trans htid2.symm))

/-- C9 witness: after persisting `bkFree`, the stored pairs are pairwise
distinct and the duplicate `bkDup` of the same user against the same
training is rejected. -/
theorem booking_unique_per_user_witness :
    dbOne.bookings.Pairwise (fun a c => ¬ (a.user = c.user ∧ a.trainingId = c.trainingId)) ∧
      save_booking dbOne bkDup = none := by
  have hr : Reachable dbOne :=
    @Reachable.save dbFree dbOne bkFree (Reachable.init [freeT]) (by decide)
  exact ⟨(booking_unique_per_user hr).1,
    (booking_unique_per_user hr).2 bkDup (by decide) ⟨bkFree, by decide, by decide, by decide⟩⟩

/-- C10: a Booking whose booking_time is None passes both validation entry
points — Booking.clean and the pre_save receiver check_booking_time — with
no error raised and no availability re-check, whatever the store holds. -/
theorem null_booking_time_skips_check (db : DB) (b : Booking)
    (h : b.booking_time = none) :
    Booking.clean db b = Outcome.ok ∧ check_booking_time db b = Outcome.ok := by
  constructor <;> simp [Booking.clean, check_booking_time, h]

/-- C10 witness: `bkNoTime` passes both entry points over `dbFree`. -/
theorem null_booking_time_skips_check_witness :
    Booking.clean dbFree bkNoTime = Outcome.ok ∧
      check_booking_time dbFree bkNoTime = Outcome.ok :=
  null_booking_time_skips_check dbFree bkNoTime rfl
